import Mathlib

/-!
# Verification of the libnbd command-issue state machine

A shallow embedding of `src/generator/states-issue-command.c`, the state
machine that frames NBD command requests onto the client socket, together
with proofs of the functional-correctness, invariant and error-handling
properties of its specification.

Modelling conventions:
* C machine integers become `Nat`; the only explicit truncation in the
  embedded code, `(uint32_t) cmd->count`, is modelled as `% 2 ^ 32`.
* `htobeN` stores a value whose wire form is produced by the big-endian
  serialiser `beBytes`; `be64toh` of a stored field is the field itself
  (the two are mutually inverse byte swaps on fixed-width values).
* The write cursor `(wbuf, wlen)` is modelled as the list of bytes still
  to be sent plus the C `wlen` counter; the machine maintains
  `wlen = wbuf.length`.
* `assert (...)` failures are modelled by handlers returning `none`.
* The intrusive singly-linked command queues become Lean lists; the head
  of `cmds_to_issue` is the C head pointer and `cmd->next` is the tail.
-/

namespace LibNBD

/-- NBD request magic number (spec §6: `magic = 0x25609513`). -/
def NBD_REQUEST_MAGIC : Nat := 0x25609513

/-- NBD command type: read (nbd-protocol.h; spec S1 uses type value 0). -/
def NBD_CMD_READ : Nat := 0

/-- NBD command type: write (nbd-protocol.h; spec S2 states `type=1`). -/
def NBD_CMD_WRITE : Nat := 1

/-- NBD command type: write zeroes (nbd-protocol.h, value 6). -/
def NBD_CMD_WRITE_ZEROES : Nat := 6

/-- `struct command_in_flight`: one queued or in-flight command.  The
C `next` pointer is represented by list structure in the handle. -/
structure command_in_flight where
  flags : Nat
  type : Nat
  handle : Nat
  offset : Nat
  count : Nat
  data : List Nat
deriving DecidableEq

/-- The reusable request header `h->request` (fixed 28-byte wire layout).
Fields hold the stored values; `requestBytes` gives the big-endian bytes. -/
structure request_t where
  magic : Nat
  flags : Nat
  type : Nat
  handle : Nat
  offset : Nat
  count : Nat
deriving DecidableEq

/-- The issue-relevant part of the connection handle `h`. -/
structure handle_t where
  cmds_to_issue : List command_in_flight
  cmds_in_flight : List command_in_flight
  request : request_t
  wbuf : List Nat
  wlen : Nat
  wflags : Bool
  in_write_payload : Bool
deriving DecidableEq

/-- States of the issue machine, plus the external pseudo-states
`READY`, `DEAD` and the reply-path entry `REPLY_START`. -/
inductive state where
  | START
  | SEND_REQUEST
  | PAUSE_SEND_REQUEST
  | PREPARE_WRITE_PAYLOAD
  | SEND_WRITE_PAYLOAD
  | PAUSE_WRITE_PAYLOAD
  | FINISH
  | READY
  | DEAD
  | REPLY_START
deriving DecidableEq

/-- Big-endian serialisation of a value into `n` bytes (the effect of
`htobeN` on the wire); truncates the value modulo `2 ^ (8 * n)`. -/
def beBytes : Nat → Nat → List Nat
  | 0, _ => []
  | n + 1, v => beBytes n (v / 256) ++ [v % 256]

/-- The 28 wire bytes of the request header: 4-byte magic, 2-byte flags,
2-byte type, 8-byte handle, 8-byte offset, 4-byte count (spec §6). -/
def requestBytes (r : request_t) : List Nat :=
  beBytes 4 r.magic ++ beBytes 2 r.flags ++ beBytes 2 r.type ++
    beBytes 8 r.handle ++ beBytes 8 r.offset ++ beBytes 4 r.count

/-- The header `ISSUE_COMMAND.START` builds for `cmd` (lines 37–42):
magic, the command's flags, type, handle, offset, and the count with the
explicit `(uint32_t)` truncation of line 42. -/
def headerFor (cmd : command_in_flight) : request_t :=
  { magic := NBD_REQUEST_MAGIC
    flags := cmd.flags
    type := cmd.type
    handle := cmd.handle
    offset := cmd.offset
    count := cmd.count % 2 ^ 32 }

/-- Outcome offered by the socket on one send call: a fatal error, or
acceptance of up to `n` bytes (`n = 0` is a clean would-block). -/
inductive sendOutcome where
  | fatal
  | accept (n : Nat)
deriving DecidableEq

/-- Modelled from the spec: `send_from_wbuf` (generator/states.c, not
under src/).  Per spec §4.2: on success it advances `wbuf` and decrements
`wlen` by the bytes accepted and returns 0 if `wlen` reached 0, else 1;
would-block returns 1 without touching the cursor; fatal returns −1.
Per spec §3, `wflags` is reset after each complete drain.  Also yields
the bytes put on the wire by this call. -/
def send_from_wbuf (h : handle_t) (o : sendOutcome) : handle_t × Int × List Nat :=
  match o with
  | .fatal => (h, -1, [])
  | .accept n =>
    let k := min n h.wlen
    let h' := { h with wbuf := h.wbuf.drop k, wlen := h.wlen - k }
    if h'.wlen = 0 then ({ h' with wflags := false }, 0, h.wbuf.take k)
    else (h', 1, h.wbuf.take k)

/-- `ISSUE_COMMAND.START` (lines 23–48).  Asserts the to-issue queue is
non-empty; if `wlen` is non-zero, resumes the interrupted send (payload
or header, by `in_write_payload`) without touching anything; otherwise
fills `request` from the head command, points the cursor at it
(`wlen = sizeof (h->request) = 28`), sets `MSG_MORE` when the command is
a WRITE or another command is queued, and goes to `SEND_REQUEST`. -/
def issue_START (h : handle_t) : Option (handle_t × state × Int) :=
  match h.cmds_to_issue with
  | [] => none
  | cmd :: rest =>
    if h.wlen ≠ 0 then
      if h.in_write_payload then some (h, .SEND_WRITE_PAYLOAD, 0)
      else some (h, .SEND_REQUEST, 0)
    else
      let r : request_t :=
        { magic := NBD_REQUEST_MAGIC
          flags := cmd.flags
          type := cmd.type
          handle := cmd.handle
          offset := cmd.offset
          count := cmd.count % 2 ^ 32 }
      let h' := { h with request := r, wbuf := requestBytes r, wlen := 28 }
      let h'' :=
        if cmd.type = NBD_CMD_WRITE ∨ rest ≠ [] then { h' with wflags := true }
        else h'
      some (h'', .SEND_REQUEST, 0)

/-- `ISSUE_COMMAND.SEND_REQUEST` (lines 50–55): fatal send → `DEAD`,
return −1; complete drain → `PREPARE_WRITE_PAYLOAD`; otherwise (partial,
return value 1) no `SET_NEXT_STATE`, the machine stays in
`SEND_REQUEST`. -/
def issue_SEND_REQUEST (h : handle_t) (o : sendOutcome) :
    handle_t × state × Int × List Nat :=
  match send_from_wbuf h o with
  | (h', r, out) =>
    if r = -1 then (h', .DEAD, -1, out)
    else if r = 0 then (h', .PREPARE_WRITE_PAYLOAD, 0, out)
    else (h', .SEND_REQUEST, 0, out)

/-- `ISSUE_COMMAND.PAUSE_SEND_REQUEST` (lines 57–62): asserts `wlen ≠ 0`
and a non-empty to-issue queue, records `in_write_payload = false` and
yields to the reply path. -/
def issue_PAUSE_SEND_REQUEST (h : handle_t) : Option (handle_t × state × Int) :=
  if h.wlen = 0 then none
  else if h.cmds_to_issue = [] then none
  else some ({ h with in_write_payload := false }, .REPLY_START, 0)

/-- `ISSUE_COMMAND.PREPARE_WRITE_PAYLOAD` (lines 64–79): asserts the
queue is non-empty and the head command's handle matches the header just
sent (`be64toh (h->request.handle)`).  For `NBD_CMD_WRITE` it points the
cursor at the payload (`wbuf = cmd->data`, `wlen = cmd->count`), sets
`MSG_MORE` when another command is queued and the payload is under
64 KiB, and goes to `SEND_WRITE_PAYLOAD`; any other type goes straight
to `FINISH`. -/
def issue_PREPARE_WRITE_PAYLOAD (h : handle_t) : Option (handle_t × state × Int) :=
  match h.cmds_to_issue with
  | [] => none
  | cmd :: rest =>
    if cmd.handle ≠ h.request.handle then none
    else if cmd.type = NBD_CMD_WRITE then
      let h' := { h with wbuf := cmd.data, wlen := cmd.count }
      let h'' :=
        if rest ≠ [] ∧ cmd.count < 64 * 1024 then { h' with wflags := true }
        else h'
      some (h'', .SEND_WRITE_PAYLOAD, 0)
    else some (h, .FINISH, 0)

/-- `ISSUE_COMMAND.SEND_WRITE_PAYLOAD` (lines 81–86): fatal → `DEAD`;
complete drain → `FINISH`; partial → stay (no `SET_NEXT_STATE`). -/
def issue_SEND_WRITE_PAYLOAD (h : handle_t) (o : sendOutcome) :
    handle_t × state × Int × List Nat :=
  match send_from_wbuf h o with
  | (h', r, out) =>
    if r = -1 then (h', .DEAD, -1, out)
    else if r = 0 then (h', .FINISH, 0, out)
    else (h', .SEND_WRITE_PAYLOAD, 0, out)

/-- `ISSUE_COMMAND.PAUSE_WRITE_PAYLOAD` (lines 88–93): asserts
`wlen ≠ 0` and a non-empty queue, records `in_write_payload = true` and
yields to the reply path. -/
def issue_PAUSE_WRITE_PAYLOAD (h : handle_t) : Option (handle_t × state × Int) :=
  if h.wlen = 0 then none
  else if h.cmds_to_issue = [] then none
  else some ({ h with in_write_payload := true }, .REPLY_START, 0)

/-- `ISSUE_COMMAND.FINISH` (lines 95–106): asserts `wlen = 0`, a
non-empty queue and that the head's handle matches the header just sent;
detaches the head from `cmds_to_issue`, pushes it onto `cmds_in_flight`
(`cmd->next = h->cmds_in_flight; h->cmds_in_flight = cmd`), and returns
to `READY`. -/
def issue_FINISH (h : handle_t) : Option (handle_t × state × Int) :=
  if h.wlen ≠ 0 then none
  else
    match h.cmds_to_issue with
    | [] => none
    | cmd :: rest =>
      if cmd.handle ≠ h.request.handle then none
      else
        some ({ h with
                  cmds_to_issue := rest,
                  cmds_in_flight := cmd :: h.cmds_in_flight }, .READY, 0)

/-- One dispatch step of the machine.  The per-state handlers above are
the code of `states-issue-command.c`; the glue is modelled from the
spec: the generated event table (generator/generator, not under src/)
routes a would-block in a SEND state to the matching PAUSE state
(spec §4.1: "Short/zero send → PAUSE_SEND_REQUEST", "partial →
PAUSE_WRITE_PAYLOAD"), the reply path returns control to `START` with
the write cursor and queues untouched (spec §4.1, §5), and `READY`
re-enters `START` while commands are queued.  `DEAD` is absorbing.
Returns `none` exactly when a C `assert` would fail. -/
def step (h : handle_t) (st : state) (o : sendOutcome) :
    Option (handle_t × state × Int × List Nat) :=
  match st with
  | .START => (issue_START h).map fun x => (x.1, x.2.1, x.2.2, [])
  | .SEND_REQUEST =>
    match issue_SEND_REQUEST h o with
    | (h', .SEND_REQUEST, rc, out) => some (h', .PAUSE_SEND_REQUEST, rc, out)
    | (h', s, rc, out) => some (h', s, rc, out)
  | .PAUSE_SEND_REQUEST =>
    (issue_PAUSE_SEND_REQUEST h).map fun x => (x.1, x.2.1, x.2.2, [])
  | .PREPARE_WRITE_PAYLOAD =>
    (issue_PREPARE_WRITE_PAYLOAD h).map fun x => (x.1, x.2.1, x.2.2, [])
  | .SEND_WRITE_PAYLOAD =>
    match issue_SEND_WRITE_PAYLOAD h o with
    | (h', .SEND_WRITE_PAYLOAD, rc, out) => some (h', .PAUSE_WRITE_PAYLOAD, rc, out)
    | (h', s, rc, out) => some (h', s, rc, out)
  | .PAUSE_WRITE_PAYLOAD =>
    (issue_PAUSE_WRITE_PAYLOAD h).map fun x => (x.1, x.2.1, x.2.2, [])
  | .FINISH => (issue_FINISH h).map fun x => (x.1, x.2.1, x.2.2, [])
  | .REPLY_START => some (h, .START, 0, [])
  | .READY =>
    if h.cmds_to_issue = [] then some (h, .READY, 0, [])
    else some (h, .START, 0, [])
  | .DEAD => some (h, .DEAD, 0, [])

/-- Run the machine for one socket outcome per step, accumulating the
bytes put on the wire; `none` when an assertion failed. -/
def run (h : handle_t) (st : state) :
    List sendOutcome → Option (handle_t × state × List Nat)
  | [] => some (h, st, [])
  | o :: os =>
    match step h st o with
    | none => none
    | some (h', st', _, out) =>
      match run h' st' os with
      | none => none
      | some (h'', st'', outs) => some (h'', st'', out ++ outs)

/-- The payload bytes a command contributes to the wire after its
header: the data for a WRITE, nothing otherwise. -/
def payloadBytes (cmd : command_in_flight) : List Nat :=
  if cmd.type = NBD_CMD_WRITE then cmd.data else []

/-- The full wire image of one command: 28-byte big-endian header, then
the payload for a WRITE. -/
def wire (cmd : command_in_flight) : List Nat :=
  requestBytes (headerFor cmd) ++ payloadBytes cmd

/-- Concatenated wire image of a queue of commands, in order. -/
def listWire : List command_in_flight → List Nat
  | [] => []
  | c :: cs => wire c ++ listWire cs

/-- Well-formedness of a command record (spec §3 data-model invariant):
a WRITE's `data` buffer has exactly `count` bytes. -/
def CmdWF (cmd : command_in_flight) : Prop :=
  cmd.type = NBD_CMD_WRITE → cmd.data.length = cmd.count

instance (cmd : command_in_flight) : Decidable (CmdWF cmd) := by
  unfold CmdWF
  infer_instance

/-- A fresh connection handle whose to-issue queue holds `cs`. -/
def initHandle (cs : List command_in_flight) : handle_t :=
  { cmds_to_issue := cs
    cmds_in_flight := []
    request := ⟨0, 0, 0, 0, 0, 0⟩
    wbuf := []
    wlen := 0
    wflags := false
    in_write_payload := false }

/-- Concrete command: a READ of 512 bytes at offset 0, handle 1
(spec scenario S1). -/
def cmdR1 : command_in_flight :=
  { flags := 0, type := NBD_CMD_READ, handle := 1, offset := 0,
    count := 512, data := [] }

/-- Concrete command: a WRITE of 8 bytes at offset 4096, handle 2
(spec scenario S2). -/
def cmdW2 : command_in_flight :=
  { flags := 0, type := NBD_CMD_WRITE, handle := 2, offset := 4096,
    count := 8, data := [17, 34, 51, 68, 85, 102, 119, 136] }

/-- Concrete command: a WRITE_ZEROES covering 4 bytes, handle 3. -/
def cmdWZ : command_in_flight :=
  { flags := 0, type := NBD_CMD_WRITE_ZEROES, handle := 3, offset := 0,
    count := 4, data := [] }

/-- Concrete command: a READ whose count exceeds 2³² − 1, handle 4. -/
def cmdBig : command_in_flight :=
  { flags := 0, type := NBD_CMD_READ, handle := 4, offset := 0,
    count := 2 ^ 32 + 7, data := [] }

/-- Socket schedule issuing one payload-free command to completion. -/
def osOne : List sendOutcome :=
  [.accept 0, .accept 0, .accept 28, .accept 0, .accept 0]

/-- Socket schedule stopping one payload-free command at FINISH. -/
def osFin : List sendOutcome := [.accept 0, .accept 0, .accept 28, .accept 0]

/-- The handle after `osOne` has fully issued `cmdR1`. -/
def doneR1 : handle_t :=
  { cmds_to_issue := [], cmds_in_flight := [cmdR1],
    request := headerFor cmdR1, wbuf := [], wlen := 0,
    wflags := false, in_write_payload := false }

/-- The handle `osFin` leaves at FINISH while issuing `cmdR1`. -/
def finR1 : handle_t :=
  { cmds_to_issue := [cmdR1], cmds_in_flight := [],
    request := headerFor cmdR1, wbuf := [], wlen := 0,
    wflags := false, in_write_payload := false }

/-- A handle paused three bytes short in the middle of a send of
`cmdR1`'s header. -/
def hMid : handle_t :=
  { cmds_to_issue := [cmdR1], cmds_in_flight := [],
    request := headerFor cmdR1, wbuf := [7, 7, 7], wlen := 3,
    wflags := false, in_write_payload := false }

/-- A handle entering PREPARE_WRITE_PAYLOAD for `cmdW2` with `cmdR1`
queued behind it. -/
def hPrep : handle_t :=
  { cmds_to_issue := [cmdW2, cmdR1], cmds_in_flight := [],
    request := headerFor cmdW2, wbuf := [], wlen := 0,
    wflags := false, in_write_payload := false }

/-- A handle entering PREPARE_WRITE_PAYLOAD for `cmdWZ`. -/
def hWZpre : handle_t :=
  { cmds_to_issue := [cmdWZ], cmds_in_flight := [],
    request := headerFor cmdWZ, wbuf := [], wlen := 0,
    wflags := false, in_write_payload := false }

/-- The machine is mid-way through the head command: the to-issue queue
is non-empty and the reused header holds the head command's handle. -/
def MidCmd (h : handle_t) : Prop :=
  ∃ c rest, h.cmds_to_issue = c :: rest ∧ c.handle = h.request.handle

/-- The reachability invariant of the issue machine: the `wlen` counter
tracks the cursor, queued commands are well formed, and per state the
facts the internal assertions rely on. -/
def Inv (h : handle_t) (st : state) : Prop :=
  h.wlen = h.wbuf.length ∧ (∀ c ∈ h.cmds_to_issue, CmdWF c) ∧
    match st with
    | .READY => h.wlen = 0
    | .DEAD => True
    | .START => h.cmds_to_issue ≠ [] ∧ (h.wlen ≠ 0 → MidCmd h)
    | .SEND_REQUEST => MidCmd h
    | .PAUSE_SEND_REQUEST => MidCmd h ∧ h.wlen ≠ 0
    | .PREPARE_WRITE_PAYLOAD => MidCmd h ∧ h.wlen = 0
    | .SEND_WRITE_PAYLOAD => MidCmd h
    | .PAUSE_WRITE_PAYLOAD => MidCmd h ∧ h.wlen ≠ 0
    | .FINISH => MidCmd h ∧ h.wlen = 0
    | .REPLY_START => MidCmd h ∧ h.wlen ≠ 0

/-- The bytes the machine still has to emit, per state: the rest of the
current drain, the not-yet-started payload of the head command, and the
wire images of the queued commands. -/
def pending (h : handle_t) (st : state) : List Nat :=
  match st with
  | .DEAD => []
  | .READY => listWire h.cmds_to_issue
  | .FINISH => listWire h.cmds_to_issue.tail
  | .START =>
    match h.cmds_to_issue with
    | [] => []
    | c :: rest =>
      if h.wlen = 0 then listWire (c :: rest)
      else h.wbuf ++ (if h.in_write_payload then [] else payloadBytes c) ++ listWire rest
  | .REPLY_START =>
    match h.cmds_to_issue with
    | [] => []
    | c :: rest =>
      h.wbuf ++ (if h.in_write_payload then [] else payloadBytes c) ++ listWire rest
  | .SEND_REQUEST =>
    match h.cmds_to_issue with
    | [] => []
    | c :: rest => h.wbuf ++ payloadBytes c ++ listWire rest
  | .PAUSE_SEND_REQUEST =>
    match h.cmds_to_issue with
    | [] => []
    | c :: rest => h.wbuf ++ payloadBytes c ++ listWire rest
  | .PREPARE_WRITE_PAYLOAD =>
    match h.cmds_to_issue with
    | [] => []
    | c :: rest => payloadBytes c ++ listWire rest
  | .SEND_WRITE_PAYLOAD =>
    match h.cmds_to_issue with
    | [] => []
    | _ :: rest => h.wbuf ++ listWire rest
  | .PAUSE_WRITE_PAYLOAD =>
    match h.cmds_to_issue with
    | [] => []
    | _ :: rest => h.wbuf ++ listWire rest

/-- `beBytes n v` always produces exactly `n` bytes. -/
theorem beBytes_length (n : Nat) : ∀ v : Nat, (beBytes n v).length = n := by
  induction n with
  | zero => intro v; rfl
  | succ n ih => intro v; simp [beBytes, ih]

/-- The serialised request header is exactly 28 bytes (`sizeof (h->request)`). -/
theorem requestBytes_length (r : request_t) : (requestBytes r).length = 28 := by
  simp [requestBytes, beBytes_length]

/-- Case analysis on a non-fatal send call: either it drains the cursor
completely (returning 0, resetting `wflags`), or it leaves a non-empty
remainder (returning 1). -/
theorem send_from_wbuf_accept (h : handle_t) (n : Nat) (hw : h.wlen = h.wbuf.length) :
    (h.wlen - min n h.wlen = 0 ∧
      send_from_wbuf h (.accept n) =
        ({ h with wbuf := [], wlen := 0, wflags := false }, 0, h.wbuf)) ∨
    (h.wlen - min n h.wlen ≠ 0 ∧
      send_from_wbuf h (.accept n) =
        ({ h with
            wbuf := h.wbuf.drop (min n h.wlen),
            wlen := h.wlen - min n h.wlen }, 1,
          h.wbuf.take (min n h.wlen))) := by
  by_cases hz : h.wlen - min n h.wlen = 0
  · left
    have hmle := Nat.min_le_right n h.wlen
    have hk : min n h.wlen = h.wbuf.length := by omega
    refine ⟨hz, ?_⟩
    simp [send_from_wbuf, hk, ← hw, hz]
  · right
    refine ⟨hz, ?_⟩
    simp [send_from_wbuf, hz]

/-- One-step soundness: from any state satisfying the invariant, every
socket outcome yields a successful step (no assertion failure) into a
state satisfying the invariant again, and — unless the step died — the
bytes emitted are exactly the difference of the pending wire images. -/
theorem step_sound (h : handle_t) (st : state) (o : sendOutcome) (hInv : Inv h st) :
    ∃ h' st' rc out, step h st o = some (h', st', rc, out) ∧ Inv h' st' ∧
      (st' = state.DEAD ∨ pending h st = out ++ pending h' st') := by
  obtain ⟨hw, hWF, hst⟩ := hInv
  cases st with
  | START =>
    obtain ⟨hne, hmid⟩ := hst
    match hq : h.cmds_to_issue with
    | [] => exact absurd hq hne
    | c :: rest =>
      by_cases hwl : h.wlen = 0
      · by_cases hmore : c.type = NBD_CMD_WRITE ∨ rest ≠ []
        · refine ⟨{ h with
              request := headerFor c,
              wbuf := requestBytes (headerFor c), wlen := 28,
              wflags := true },
            .SEND_REQUEST, 0, [], ?_, ⟨?_, ?_, c, rest, ?_, ?_⟩, Or.inr ?_⟩
          · simp [step, issue_START, hq, hwl, hmore, headerFor]
          · simp [requestBytes_length]
          · simpa [hq] using hWF
          · simp [hq]
          · simp [headerFor]
          · simp [pending, hq, hwl, listWire, wire]
        · refine ⟨{ h with
              request := headerFor c,
              wbuf := requestBytes (headerFor c), wlen := 28 },
            .SEND_REQUEST, 0, [], ?_, ⟨?_, ?_, c, rest, ?_, ?_⟩, Or.inr ?_⟩
          · simp [step, issue_START, hq, hwl, hmore, headerFor]
          · simp [requestBytes_length]
          · simpa [hq] using hWF
          · simp [hq]
          · simp [headerFor]
          · simp [pending, hq, hwl, listWire, wire]
      · have hmid' := hmid hwl
        cases hiw : h.in_write_payload
        · refine ⟨h, .SEND_REQUEST, 0, [], ?_, ⟨hw, hWF, hmid'⟩, Or.inr ?_⟩
          · simp [step, issue_START, hq, hwl, hiw]
          · simp [pending, hq, hwl, hiw]
        · refine ⟨h, .SEND_WRITE_PAYLOAD, 0, [], ?_, ⟨hw, hWF, hmid'⟩, Or.inr ?_⟩
          · simp [step, issue_START, hq, hwl, hiw]
          · simp [pending, hq, hwl, hiw]
  | SEND_REQUEST =>
    obtain ⟨c, rest, hq, hh⟩ := hst
    cases o with
    | fatal =>
      refine ⟨h, .DEAD, -1, [], ?_, ⟨hw, hWF, trivial⟩, Or.inl rfl⟩
      simp [step, issue_SEND_REQUEST, send_from_wbuf]
    | accept n =>
      rcases send_from_wbuf_accept h n hw with ⟨hz, hsend⟩ | ⟨hz, hsend⟩
      · refine ⟨{ h with wbuf := [], wlen := 0, wflags := false },
          .PREPARE_WRITE_PAYLOAD, 0, h.wbuf, ?_,
          ⟨rfl, hWF, ⟨c, rest, hq, hh⟩, rfl⟩, Or.inr ?_⟩
        · simp [step, issue_SEND_REQUEST, hsend]
        · simp [pending, hq]
      · refine ⟨{ h with
            wbuf := h.wbuf.drop (min n h.wlen),
            wlen := h.wlen - min n h.wlen },
          .PAUSE_SEND_REQUEST, 0, h.wbuf.take (min n h.wlen), ?_,
          ⟨by simp [hw], hWF, ⟨c, rest, hq, hh⟩, hz⟩, Or.inr ?_⟩
        · simp [step, issue_SEND_REQUEST, hsend]
        · simp [pending, hq, ← List.append_assoc, List.take_append_drop]
  | PAUSE_SEND_REQUEST =>
    obtain ⟨⟨c, rest, hq, hh⟩, hwl⟩ := hst
    refine ⟨{ h with in_write_payload := false }, .REPLY_START, 0, [], ?_,
      ⟨hw, hWF, ⟨c, rest, hq, hh⟩, hwl⟩, Or.inr ?_⟩
    · simp [step, issue_PAUSE_SEND_REQUEST, hwl, hq]
    · simp [pending, hq]
  | PREPARE_WRITE_PAYLOAD =>
    obtain ⟨⟨c, rest, hq, hh⟩, hwl⟩ := hst
    by_cases hty : c.type = NBD_CMD_WRITE
    · have hlen : c.data.length = c.count := hWF c (by simp [hq]) hty
      by_cases hmore : rest ≠ [] ∧ c.count < 64 * 1024
      · refine ⟨{ h with wbuf := c.data, wlen := c.count, wflags := true },
          .SEND_WRITE_PAYLOAD, 0, [], ?_,
          ⟨by simp [hlen], hWF, ⟨c, rest, hq, hh⟩⟩, Or.inr ?_⟩
        · simp [step, issue_PREPARE_WRITE_PAYLOAD, hq, hh, hty, hmore]
        · simp [pending, hq, payloadBytes, hty]
      · refine ⟨{ h with wbuf := c.data, wlen := c.count },
          .SEND_WRITE_PAYLOAD, 0, [], ?_,
          ⟨by simp [hlen], hWF, ⟨c, rest, hq, hh⟩⟩, Or.inr ?_⟩
        · simp [step, issue_PREPARE_WRITE_PAYLOAD, hq, hh, hty, hmore]
        · simp [pending, hq, payloadBytes, hty]
    · refine ⟨h, .FINISH, 0, [], ?_,
        ⟨hw, hWF, ⟨c, rest, hq, hh⟩, hwl⟩, Or.inr ?_⟩
      · simp [step, issue_PREPARE_WRITE_PAYLOAD, hq, hh, hty]
      · simp [pending, hq, payloadBytes, hty]
  | SEND_WRITE_PAYLOAD =>
    obtain ⟨c, rest, hq, hh⟩ := hst
    cases o with
    | fatal =>
      refine ⟨h, .DEAD, -1, [], ?_, ⟨hw, hWF, trivial⟩, Or.inl rfl⟩
      simp [step, issue_SEND_WRITE_PAYLOAD, send_from_wbuf]
    | accept n =>
      rcases send_from_wbuf_accept h n hw with ⟨hz, hsend⟩ | ⟨hz, hsend⟩
      · refine ⟨{ h with wbuf := [], wlen := 0, wflags := false },
          .FINISH, 0, h.wbuf, ?_,
          ⟨rfl, hWF, ⟨c, rest, hq, hh⟩, rfl⟩, Or.inr ?_⟩
        · simp [step, issue_SEND_WRITE_PAYLOAD, hsend]
        · simp [pending, hq]
      · refine ⟨{ h with
            wbuf := h.wbuf.drop (min n h.wlen),
            wlen := h.wlen - min n h.wlen },
          .PAUSE_WRITE_PAYLOAD, 0, h.wbuf.take (min n h.wlen), ?_,
          ⟨by simp [hw], hWF, ⟨c, rest, hq, hh⟩, hz⟩, Or.inr ?_⟩
        · simp [step, issue_SEND_WRITE_PAYLOAD, hsend]
        · simp [pending, hq, ← List.append_assoc, List.take_append_drop]
  | PAUSE_WRITE_PAYLOAD =>
    obtain ⟨⟨c, rest, hq, hh⟩, hwl⟩ := hst
    refine ⟨{ h with in_write_payload := true }, .REPLY_START, 0, [], ?_,
      ⟨hw, hWF, ⟨c, rest, hq, hh⟩, hwl⟩, Or.inr ?_⟩
    · simp [step, issue_PAUSE_WRITE_PAYLOAD, hwl, hq]
    · simp [pending, hq]
  | FINISH =>
    obtain ⟨⟨c, rest, hq, hh⟩, hwl⟩ := hst
    refine ⟨{ h with
          cmds_to_issue := rest,
          cmds_in_flight := c :: h.cmds_in_flight },
      .READY, 0, [], ?_, ⟨hw, ?_, hwl⟩, Or.inr ?_⟩
    · simp [step, issue_FINISH, hwl, hq, hh]
    · intro c' hc'
      exact hWF c' (by simp [hq, hc'])
    · simp [pending, hq]
  | READY =>
    by_cases hq : h.cmds_to_issue = []
    · refine ⟨h, .READY, 0, [], ?_, ⟨hw, hWF, hst⟩, Or.inr rfl⟩
      simp [step, hq]
    · refine ⟨h, .START, 0, [], ?_,
        ⟨hw, hWF, hq, fun hwl => absurd hst hwl⟩, Or.inr ?_⟩
      · simp [step, hq]
      · match hq' : h.cmds_to_issue with
        | [] => exact absurd hq' hq
        | c :: rest => simp [pending, hq', hst]
  | DEAD =>
    exact ⟨h, .DEAD, 0, [], rfl, ⟨hw, hWF, trivial⟩, Or.inl rfl⟩
  | REPLY_START =>
    obtain ⟨⟨c, rest, hq, hh⟩, hwl⟩ := hst
    refine ⟨h, .START, 0, [], rfl,
      ⟨hw, hWF, by simp [hq], fun _ => ⟨c, rest, hq, hh⟩⟩, Or.inr ?_⟩
    simp [pending, hq, hwl]

/-- A run that has died stays dead and emits nothing further. -/
theorem run_dead (h : handle_t) (os : List sendOutcome) :
    run h .DEAD os = some (h, .DEAD, []) := by
  induction os with
  | nil => rfl
  | cons o os ih => simp [run, step, ih]

/-- Multi-step soundness: from any invariant state every socket schedule
runs without assertion failure, re-establishes the invariant, and —
unless it died — emits exactly the difference of pending wire bytes. -/
theorem run_sound (os : List sendOutcome) (h : handle_t) (st : state)
    (hInv : Inv h st) :
    ∃ h' st' out, run h st os = some (h', st', out) ∧ Inv h' st' ∧
      (st' = state.DEAD ∨ pending h st = out ++ pending h' st') := by
  induction os generalizing h st with
  | nil => exact ⟨h, st, [], rfl, hInv, Or.inr rfl⟩
  | cons o os ih =>
    obtain ⟨h1, st1, rc, out1, hstep, hInv1, hd1⟩ := step_sound h st o hInv
    obtain ⟨h2, st2, out2, hrun, hInv2, hd2⟩ := ih h1 st1 hInv1
    refine ⟨h2, st2, out1 ++ out2, ?_, hInv2, ?_⟩
    · simp [run, hstep, hrun]
    · rcases hd1 with hdead | heq
      · subst hdead
        rw [run_dead] at hrun
        simp only [Option.some.injEq, Prod.mk.injEq] at hrun
        exact Or.inl hrun.2.1.symm
      · rcases hd2 with hdead2 | heq2
        · exact Or.inl hdead2
        · exact Or.inr (by rw [heq, heq2, List.append_assoc])

/-- Pending bytes at READY are the wire images of the queued commands. -/
theorem pending_READY (h : handle_t) :
    pending h .READY = listWire h.cmds_to_issue := rfl

/-- A fresh handle with a well-formed queue satisfies the invariant. -/
theorem initHandle_inv (cs : List command_in_flight)
    (hWF : ∀ c ∈ cs, CmdWF c) : Inv (initHandle cs) .READY :=
  ⟨rfl, hWF, rfl⟩

/-- With no partial write pending, `issue_START` fills the header from
the head command, points the cursor at it and moves to SEND_REQUEST. -/
theorem issue_START_fill (h : handle_t) (c : command_in_flight)
    (rest : List command_in_flight) (hwl : h.wlen = 0)
    (hq : h.cmds_to_issue = c :: rest) :
    ∃ b : Bool, issue_START h =
      some ({ h with
              request := headerFor c,
              wbuf := requestBytes (headerFor c), wlen := 28,
              wflags := b }, .SEND_REQUEST, 0) := by
  by_cases hmore : c.type = NBD_CMD_WRITE ∨ rest ≠ []
  · exact ⟨true, by simp [issue_START, hq, hwl, hmore, headerFor]⟩
  · exact ⟨h.wflags, by simp [issue_START, hq, hwl, hmore, headerFor]⟩

/-- C1: for a head command with no partial write pending (`wlen = 0`),
START fills the reusable request header with the big-endian-encoded
magic, flags, type, handle, offset and count of the head command and
sets the write cursor to it (`wbuf = &request`, `wlen = 28`); and for
any enqueued sequence and any socket schedule, the bytes emitted by a
completed run are exactly, per command, the 28-byte big-endian header
followed (for WRITE) by the payload bytes, in enqueue order. -/
theorem start_fills_header_and_framing_exact :
    (∀ (h : handle_t) (c : command_in_flight) (rest : List command_in_flight),
      h.wlen = 0 → h.cmds_to_issue = c :: rest →
      ∃ b : Bool, issue_START h =
        some ({ h with
                request := headerFor c,
                wbuf := requestBytes (headerFor c), wlen := 28,
                wflags := b }, .SEND_REQUEST, 0)) ∧
    (∀ (cs : List command_in_flight) (os : List sendOutcome)
      (h' : handle_t) (out : List Nat),
      (∀ c ∈ cs, CmdWF c) →
      run (initHandle cs) .READY os = some (h', .READY, out) →
      h'.cmds_to_issue = [] → out = listWire cs) := by
  constructor
  · exact fun h c rest hwl hq => issue_START_fill h c rest hwl hq
  · intro cs os h' out hWF hrun hdone
    obtain ⟨h2, st2, out2, hrun2, hInv2, hd⟩ :=
      run_sound os (initHandle cs) .READY (initHandle_inv cs hWF)
    rw [hrun] at hrun2
    simp only [Option.some.injEq, Prod.mk.injEq] at hrun2
    obtain ⟨eh, est, eout⟩ := hrun2
    subst eh
    subst est
    subst eout
    rcases hd with hdead | heq
    · simp at hdead
    · have e1 : pending (initHandle cs) .READY = listWire cs := rfl
      have e2 : pending h' .READY = [] := by rw [pending_READY, hdone]; rfl
      rw [e1, e2, List.append_nil] at heq
      exact heq.symm

/-- C1 witness: START on a fresh handle holding the single READ `cmdR1`
fills the header and cursor, and the completed run of that queue puts
exactly its wire image on the socket. -/
theorem start_fills_header_and_framing_exact_w :
    (∃ b : Bool, issue_START (initHandle [cmdR1]) =
      some ({ initHandle [cmdR1] with
              request := headerFor cmdR1,
              wbuf := requestBytes (headerFor cmdR1), wlen := 28,
              wflags := b }, .SEND_REQUEST, 0)) ∧
    requestBytes (headerFor cmdR1) = listWire [cmdR1] :=
  ⟨start_fills_header_and_framing_exact.1 (initHandle [cmdR1]) cmdR1 [] rfl rfl,
   start_fills_header_and_framing_exact.2 [cmdR1] osOne doneR1
     (requestBytes (headerFor cmdR1)) (by decide) (by decide) (by decide)⟩

/-- C2: entering START with `wlen > 0` resumes the interrupted write —
SEND_WRITE_PAYLOAD when `in_write_payload`, SEND_REQUEST otherwise —
returning the handle itself, so the header buffer, `wbuf` and `wlen`
are untouched. -/
theorem start_resume_leaves_handle_untouched (h : handle_t)
    (hq : h.cmds_to_issue ≠ []) (hwl : h.wlen ≠ 0) :
    issue_START h =
      some (h, if h.in_write_payload then .SEND_WRITE_PAYLOAD
               else .SEND_REQUEST, 0) := by
  match hq' : h.cmds_to_issue with
  | [] => exact absurd hq' hq
  | c :: rest => cases hiw : h.in_write_payload <;> simp [issue_START, hq', hwl, hiw]

/-- C2 witness: resuming the handle paused mid-header. -/
theorem start_resume_leaves_handle_untouched_w :
    issue_START hMid =
      some (hMid, if hMid.in_write_payload then .SEND_WRITE_PAYLOAD
                  else .SEND_REQUEST, 0) :=
  start_resume_leaves_handle_untouched hMid (by decide) (by decide)

/-- C3: a short/zero send outcome that leaves `wlen > 0` takes
SEND_REQUEST to PAUSE_SEND_REQUEST and SEND_WRITE_PAYLOAD to
PAUSE_WRITE_PAYLOAD, emitting exactly the accepted prefix. -/
theorem short_send_transitions_to_pause (h : handle_t) (n : Nat)
    (hw : h.wlen = h.wbuf.length) (hn : n < h.wlen) :
    (∃ h', step h .SEND_REQUEST (.accept n) =
        some (h', .PAUSE_SEND_REQUEST, 0, h.wbuf.take n) ∧ h'.wlen ≠ 0) ∧
    (∃ h', step h .SEND_WRITE_PAYLOAD (.accept n) =
        some (h', .PAUSE_WRITE_PAYLOAD, 0, h.wbuf.take n) ∧ h'.wlen ≠ 0) := by
  have hmin : min n h.wlen = n := Nat.min_eq_left hn.le
  rcases send_from_wbuf_accept h n hw with ⟨hz, _⟩ | ⟨hz, hsend⟩
  · rw [hmin] at hz; omega
  · rw [hmin] at hz hsend
    constructor
    · refine ⟨{ h with
          wbuf := h.wbuf.drop n, wlen := h.wlen - n }, ?_, ?_⟩
      · simp [step, issue_SEND_REQUEST, hsend]
      · simpa using hz
    · refine ⟨{ h with
          wbuf := h.wbuf.drop n, wlen := h.wlen - n }, ?_, ?_⟩
      · simp [step, issue_SEND_WRITE_PAYLOAD, hsend]
      · simpa using hz

/-- C3 witness: one accepted byte out of three pending pauses both send
states on the concrete mid-header handle. -/
theorem short_send_transitions_to_pause_w :
    (∃ h', step hMid .SEND_REQUEST (.accept 1) =
        some (h', .PAUSE_SEND_REQUEST, 0, hMid.wbuf.take 1) ∧ h'.wlen ≠ 0) ∧
    (∃ h', step hMid .SEND_WRITE_PAYLOAD (.accept 1) =
        some (h', .PAUSE_WRITE_PAYLOAD, 0, hMid.wbuf.take 1) ∧ h'.wlen ≠ 0) :=
  short_send_transitions_to_pause hMid 1 (by decide) (by decide)

/-- C4: whenever a run reaches FINISH its preconditions hold — `wlen`
is 0 and the head command's handle equals the big-endian-decoded handle
in the request header — and FINISH detaches exactly the head of
`cmds_to_issue`, prepends it to `cmds_in_flight` leaving both lists
otherwise unchanged and in order, and returns to READY. -/
theorem finish_moves_head_to_in_flight (cs : List command_in_flight)
    (os : List sendOutcome) (h' : handle_t) (out : List Nat)
    (hWF : ∀ c ∈ cs, CmdWF c)
    (hrun : run (initHandle cs) .READY os = some (h', .FINISH, out)) :
    h'.wlen = 0 ∧
    ∃ c rest, h'.cmds_to_issue = c :: rest ∧ c.handle = h'.request.handle ∧
      issue_FINISH h' =
        some ({ h' with
                cmds_to_issue := rest,
                cmds_in_flight := c :: h'.cmds_in_flight }, .READY, 0) := by
  obtain ⟨h2, st2, out2, hrun2, hInv2, _⟩ :=
    run_sound os (initHandle cs) .READY (initHandle_inv cs hWF)
  rw [hrun] at hrun2
  simp only [Option.some.injEq, Prod.mk.injEq] at hrun2
  obtain ⟨eh, est, eout⟩ := hrun2
  subst eh
  subst est
  obtain ⟨hw, hWF2, ⟨c, rest, hq, hh⟩, hwl⟩ := hInv2
  exact ⟨hwl, c, rest, hq, hh, by simp [issue_FINISH, hwl, hq, hh]⟩

/-- C4 witness: the run stopping at FINISH while issuing `cmdR1`. -/
theorem finish_moves_head_to_in_flight_w :
    finR1.wlen = 0 ∧
    ∃ c rest, finR1.cmds_to_issue = c :: rest ∧
      c.handle = finR1.request.handle ∧
      issue_FINISH finR1 =
        some ({ finR1 with
                cmds_to_issue := rest,
                cmds_in_flight := c :: finR1.cmds_in_flight }, .READY, 0) :=
  finish_moves_head_to_in_flight [cmdR1] osFin finR1
    (requestBytes (headerFor cmdR1)) (by decide) (by decide)

/-- C5: with `wflags` clear on entry (it is reset by the preceding
drain), START sets the more-data hint exactly when the head command is
a WRITE or another command is queued behind it, and
PREPARE_WRITE_PAYLOAD sets it for a WRITE payload exactly when another
command is queued and the payload is below 64 KiB. -/
theorem msg_more_hint_iff :
    (∀ (h : handle_t) (c : command_in_flight) (rest : List command_in_flight),
      h.cmds_to_issue = c :: rest → h.wlen = 0 → h.wflags = false →
      ∃ h' rc, issue_START h = some (h', .SEND_REQUEST, rc) ∧
        (h'.wflags = true ↔ (c.type = NBD_CMD_WRITE ∨ rest ≠ []))) ∧
    (∀ (h : handle_t) (c : command_in_flight) (rest : List command_in_flight),
      h.cmds_to_issue = c :: rest → c.handle = h.request.handle →
      c.type = NBD_CMD_WRITE → h.wflags = false →
      ∃ h' rc, issue_PREPARE_WRITE_PAYLOAD h =
          some (h', .SEND_WRITE_PAYLOAD, rc) ∧
        (h'.wflags = true ↔ (rest ≠ [] ∧ c.count < 64 * 1024))) := by
  constructor
  · intro h c rest hq hwl hfl
    by_cases hmore : c.type = NBD_CMD_WRITE ∨ rest ≠ []
    · refine ⟨{ h with
          request := headerFor c,
          wbuf := requestBytes (headerFor c), wlen := 28,
          wflags := true }, 0, ?_, ?_⟩
      · simp [issue_START, hq, hwl, hmore, headerFor]
      · simpa using hmore
    · refine ⟨{ h with
          request := headerFor c,
          wbuf := requestBytes (headerFor c), wlen := 28 }, 0, ?_, ?_⟩
      · simp [issue_START, hq, hwl, hmore, headerFor]
      · simp [hfl, hmore]
  · intro h c rest hq hh hty hfl
    by_cases hmore : rest ≠ [] ∧ c.count < 64 * 1024
    · refine ⟨{ h with
          wbuf := c.data, wlen := c.count, wflags := true }, 0, ?_, ?_⟩
      · simp [issue_PREPARE_WRITE_PAYLOAD, hq, hh, hty, hmore]
      · simpa using hmore
    · refine ⟨{ h with wbuf := c.data, wlen := c.count }, 0, ?_, ?_⟩
      · simp [issue_PREPARE_WRITE_PAYLOAD, hq, hh, hty, hmore]
      · simp [hfl, hmore]

/-- C5 witness: a WRITE with a queued successor gets the hint on both
the header and its (small) payload. -/
theorem msg_more_hint_iff_w :
    (∃ h' rc, issue_START (initHandle [cmdW2, cmdR1]) =
        some (h', .SEND_REQUEST, rc) ∧
      (h'.wflags = true ↔
        (cmdW2.type = NBD_CMD_WRITE ∨ ([cmdR1] : List command_in_flight) ≠ []))) ∧
    (∃ h' rc, issue_PREPARE_WRITE_PAYLOAD hPrep =
        some (h', .SEND_WRITE_PAYLOAD, rc) ∧
      (h'.wflags = true ↔
        (([cmdR1] : List command_in_flight) ≠ [] ∧ cmdW2.count < 64 * 1024))) :=
  ⟨msg_more_hint_iff.1 (initHandle [cmdW2, cmdR1]) cmdW2 [cmdR1] rfl rfl rfl,
   msg_more_hint_iff.2 hPrep cmdW2 [cmdR1] rfl rfl rfl rfl⟩

/-- C6 counterexample: for the WRITE_ZEROES command `cmdWZ` with
`count = 4`, PREPARE_WRITE_PAYLOAD sets up no payload drain — it goes
directly to FINISH — and the complete run emits exactly the 28 header
bytes, not 28 + 4: the claim's WRITE_ZEROES half fails on the code. -/
theorem write_zeroes_has_no_payload_cex :
    cmdWZ.type = NBD_CMD_WRITE_ZEROES ∧ cmdWZ.count = 4 ∧
    issue_PREPARE_WRITE_PAYLOAD hWZpre = some (hWZpre, .FINISH, 0) ∧
    run (initHandle [cmdWZ]) .READY osOne =
      some ({ hWZpre with
              cmds_to_issue := [], cmds_in_flight := [cmdWZ] },
        .READY, requestBytes (headerFor cmdWZ)) ∧
    (requestBytes (headerFor cmdWZ)).length = 28 := by decide

/-- C6 (amended): only a command of type WRITE has its 28-byte header
followed by `count` payload bytes (PREPARE_WRITE_PAYLOAD sets up the
payload drain before FINISH); for every other type — READ and
WRITE_ZEROES included — no payload bytes follow the header and the
machine goes directly to FINISH. -/
theorem payload_only_for_write (h : handle_t) (c : command_in_flight)
    (rest : List command_in_flight) (hq : h.cmds_to_issue = c :: rest)
    (hh : c.handle = h.request.handle) :
    (c.type = NBD_CMD_WRITE →
      wire c = requestBytes (headerFor c) ++ c.data ∧
      ∃ h', issue_PREPARE_WRITE_PAYLOAD h =
          some (h', .SEND_WRITE_PAYLOAD, 0) ∧
        h'.wbuf = c.data ∧ h'.wlen = c.count) ∧
    (c.type ≠ NBD_CMD_WRITE →
      wire c = requestBytes (headerFor c) ∧
      issue_PREPARE_WRITE_PAYLOAD h = some (h, .FINISH, 0)) := by
  constructor
  · intro hty
    refine ⟨by simp [wire, payloadBytes, hty], ?_⟩
    by_cases hmore : rest ≠ [] ∧ c.count < 64 * 1024
    · exact ⟨{ h with wbuf := c.data, wlen := c.count, wflags := true },
        by simp [issue_PREPARE_WRITE_PAYLOAD, hq, hh, hty, hmore], rfl, rfl⟩
    · exact ⟨{ h with wbuf := c.data, wlen := c.count },
        by simp [issue_PREPARE_WRITE_PAYLOAD, hq, hh, hty, hmore], rfl, rfl⟩
  · intro hty
    exact ⟨by simp [wire, payloadBytes, hty],
      by simp [issue_PREPARE_WRITE_PAYLOAD, hq, hh, hty]⟩

/-- C6 (amended) witness: instantiated at the WRITE command `cmdW2`. -/
theorem payload_only_for_write_w :
    (cmdW2.type = NBD_CMD_WRITE →
      wire cmdW2 = requestBytes (headerFor cmdW2) ++ cmdW2.data ∧
      ∃ h', issue_PREPARE_WRITE_PAYLOAD hPrep =
          some (h', .SEND_WRITE_PAYLOAD, 0) ∧
        h'.wbuf = cmdW2.data ∧ h'.wlen = cmdW2.count) ∧
    (cmdW2.type ≠ NBD_CMD_WRITE →
      wire cmdW2 = requestBytes (headerFor cmdW2) ∧
      issue_PREPARE_WRITE_PAYLOAD hPrep = some (hPrep, .FINISH, 0)) :=
  payload_only_for_write hPrep cmdW2 [cmdR1] rfl rfl

/-- C7: a fatal send error in SEND_REQUEST or SEND_WRITE_PAYLOAD sends
the machine to DEAD with return value −1, emitting nothing and leaving
the handle — in particular the head command still in `cmds_to_issue` —
completely untouched. -/
theorem fatal_send_goes_dead (h : handle_t) :
    step h .SEND_REQUEST .fatal = some (h, .DEAD, -1, []) ∧
    step h .SEND_WRITE_PAYLOAD .fatal = some (h, .DEAD, -1, []) := by
  constructor <;>
    simp [step, issue_SEND_REQUEST, issue_SEND_WRITE_PAYLOAD, send_from_wbuf]

/-- C8: PAUSE_SEND_REQUEST records `in_write_payload = false`,
PAUSE_WRITE_PAYLOAD records `in_write_payload = true`; both hand
control to the reply path with `wbuf`, `wlen`, the request header and
both command queues unchanged, so a resume continues at the exact byte
the send stopped at. -/
theorem pause_records_direction_preserves_cursor (h : handle_t)
    (hwl : h.wlen ≠ 0) (hq : h.cmds_to_issue ≠ []) :
    issue_PAUSE_SEND_REQUEST h =
      some ({ h with in_write_payload := false }, .REPLY_START, 0) ∧
    issue_PAUSE_WRITE_PAYLOAD h =
      some ({ h with in_write_payload := true }, .REPLY_START, 0) ∧
    ({ h with in_write_payload := false }).wbuf = h.wbuf ∧
    ({ h with in_write_payload := false }).wlen = h.wlen ∧
    ({ h with in_write_payload := false }).request = h.request ∧
    ({ h with in_write_payload := false }).cmds_to_issue = h.cmds_to_issue ∧
    ({ h with in_write_payload := false }).cmds_in_flight = h.cmds_in_flight ∧
    ({ h with in_write_payload := true }).wbuf = h.wbuf ∧
    ({ h with in_write_payload := true }).wlen = h.wlen ∧
    ({ h with in_write_payload := true }).request = h.request ∧
    ({ h with in_write_payload := true }).cmds_to_issue = h.cmds_to_issue ∧
    ({ h with in_write_payload := true }).cmds_in_flight = h.cmds_in_flight := by
  refine ⟨?_, ?_, rfl, rfl, rfl, rfl, rfl, rfl, rfl, rfl, rfl, rfl⟩ <;>
    simp [issue_PAUSE_SEND_REQUEST, issue_PAUSE_WRITE_PAYLOAD, hwl, hq]

/-- C8 witness: both pause states on the concrete mid-header handle. -/
theorem pause_records_direction_preserves_cursor_w :
    issue_PAUSE_SEND_REQUEST hMid =
      some ({ hMid with in_write_payload := false }, .REPLY_START, 0) ∧
    issue_PAUSE_WRITE_PAYLOAD hMid =
      some ({ hMid with in_write_payload := true }, .REPLY_START, 0) ∧
    ({ hMid with in_write_payload := false }).wbuf = hMid.wbuf ∧
    ({ hMid with in_write_payload := false }).wlen = hMid.wlen ∧
    ({ hMid with in_write_payload := false }).request = hMid.request ∧
    ({ hMid with in_write_payload := false }).cmds_to_issue = hMid.cmds_to_issue ∧
    ({ hMid with in_write_payload := false }).cmds_in_flight = hMid.cmds_in_flight ∧
    ({ hMid with in_write_payload := true }).wbuf = hMid.wbuf ∧
    ({ hMid with in_write_payload := true }).wlen = hMid.wlen ∧
    ({ hMid with in_write_payload := true }).request = hMid.request ∧
    ({ hMid with in_write_payload := true }).cmds_to_issue = hMid.cmds_to_issue ∧
    ({ hMid with in_write_payload := true }).cmds_in_flight = hMid.cmds_in_flight :=
  pause_records_direction_preserves_cursor hMid (by decide) (by decide)

/-- C9: the count field START stores in the wire header is `cmd->count`
reduced modulo 2³² (the explicit `(uint32_t)` cast of line 42); an
oversized count is silently truncated there, not rejected. -/
theorem header_count_truncated_mod_2_32 (h : handle_t)
    (c : command_in_flight) (rest : List command_in_flight)
    (hwl : h.wlen = 0) (hq : h.cmds_to_issue = c :: rest) :
    ∃ h', issue_START h = some (h', .SEND_REQUEST, 0) ∧
      h'.request.count = c.count % 2 ^ 32 := by
  obtain ⟨b, hb⟩ := issue_START_fill h c rest hwl hq
  exact ⟨_, hb, rfl⟩

/-- C9 witness: a command with `count = 2³² + 7` is accepted by START
and its header count field is 7. -/
theorem header_count_truncated_mod_2_32_w :
    cmdBig.count = 2 ^ 32 + 7 ∧ cmdBig.count % 2 ^ 32 = 7 ∧
    ∃ h', issue_START (initHandle [cmdBig]) = some (h', .SEND_REQUEST, 0) ∧
      h'.request.count = cmdBig.count % 2 ^ 32 :=
  ⟨rfl, by decide,
   header_count_truncated_mod_2_32 (initHandle [cmdBig]) cmdBig [] rfl rfl⟩

/-- C10: from a well-formed initial queue, every socket schedule runs
without any internal assertion failing: `cmds_to_issue` is non-null in
START, the PAUSE states, PREPARE_WRITE_PAYLOAD and FINISH, `wlen` is
non-zero in both PAUSE states, and in PREPARE_WRITE_PAYLOAD and FINISH
the head command's handle equals the handle stored in the reused
header. -/
theorem reachable_assertions_hold (cs : List command_in_flight)
    (os : List sendOutcome) (hWF : ∀ c ∈ cs, CmdWF c) :
    (run (initHandle cs) .READY os).isSome = true := by
  obtain ⟨h', st', out, hrun, _, _⟩ :=
    run_sound os (initHandle cs) .READY (initHandle_inv cs hWF)
  simp [hrun]

/-- C10 witness: the single-READ queue under the `osOne` schedule. -/
theorem reachable_assertions_hold_w :
    (run (initHandle [cmdR1]) .READY osOne).isSome = true :=
  reachable_assertions_hold [cmdR1] osOne (by decide)

end LibNBD
